import Mathlib

set_option autoImplicit false

/-!
Verification of the stateless file-system agent relay (Telegram ⇄ SQS ⇄ Agent
Server).  The definitions below are shallow embeddings of the Python source
under `agent-sdk-client/` and `agent-sdk-server/`; external services (Telegram
Bot API, SQS, DynamoDB, the Agent SDK) are modelled by explicit outcome
parameters that say whether each call succeeds or raises.
-/

namespace FSAgent

/-! ## Python string primitives (config.py helpers) -/

/-- ASCII whitespace recognised by Python `str.strip()` / `str.split()`. -/
def isPyWs (c : Char) : Bool :=
  c = ' ' || c = '\t' || c = '\n' || c = '\r' || c = '\x0b' || c = '\x0c'

/-- Remove trailing whitespace (the right half of Python `str.strip()`). -/
def rstripL : List Char → List Char
  | [] => []
  | c :: l =>
    if (rstripL l).isEmpty then (if isPyWs c then [] else [c]) else c :: rstripL l

/-- Python `str.strip()` on a character list: drop leading and trailing whitespace. -/
def stripL (l : List Char) : List Char :=
  rstripL (l.dropWhile isPyWs)

/-- Python `trimmed.split()[0]` for an already left-stripped list: the first
whitespace-delimited word.  (In `extract_command` this is only evaluated on a
non-empty trimmed string, where Python's `split()[0]` is defined.) -/
def firstWordL (l : List Char) : List Char :=
  l.takeWhile (fun c => !isPyWs c)

/-- Python `s[:n]` character slice. -/
def pyTake (n : Nat) (s : String) : String :=
  ⟨s.data.take n⟩

/-! ## config.py: `extract_command` -/

/-- The part of `extract_command` after trimming (config.py lines 27-36): the
trimmed text must start with `/`, the first whitespace-delimited token is
taken, a `@mention` suffix is cut at the first `@`, the token is stripped
again, and an empty or bare-`/` token yields `None`. -/
def extractCommandCore (trimmed : List Char) : Option (List Char) :=
  match trimmed with
  | [] => none
  | c :: rest =>
    if c ≠ '/' then none
    else
      let command := firstWordL (c :: rest)
      let command := if command.contains '@' then command.takeWhile (fun x => x ≠ '@') else command
      let command := stripL command
      if command = [] ∨ command = ['/'] then none else some command

/-- The `extract_command` body on the character list of the input text
(config.py lines 21-36): falsy input yields `None`, otherwise the text is
stripped and handed to `extractCommandCore`. -/
def extractCommandL (l : List Char) : Option (List Char) :=
  if l = [] then none else extractCommandCore (stripL l)

/-- config.py `extract_command(text)`: `None` input and empty text are falsy and
yield `None`; otherwise the trimmed text must start with the `/` prefix, the
first whitespace-delimited token is taken, a `@mention` suffix is cut at the
first `@`, and a result that is empty or exactly `/` yields `None`. -/
def extract_command (text : Option String) : Option String :=
  match text with
  | none => none
  | some s => (extractCommandL s.data).map (fun l => String.mk l)

/-! ## security.py -/

/-- A validated whitelist entry: the wildcard string `all` or a numeric user id
(config.py keeps exactly these after validation; a TOML boolean is kept as an
`int` because Python `bool` is an `int` subclass). -/
inductive WEntry where
  | all
  | user (id : Int)
deriving DecidableEq, Repr

/-- security.py `is_user_allowed`: true iff the whitelist holds the wildcard
entry or the literal user id. -/
def is_user_allowed (userId : Int) (whitelist : List WEntry) : Bool :=
  whitelist.contains WEntry.all || whitelist.contains (WEntry.user userId)

/-- A Telegram `my_chat_member` event: the bot's old and new membership status
and the user who triggered the transition. -/
structure ChatMemberUpdated where
  oldStatus : String
  newStatus : String
  fromUserId : Int
  chatId : Int
deriving DecidableEq, Repr

/-- The fields of a Telegram message read by the producer handler. -/
structure TgMessage where
  text : Option String
  chatType : String
  isForum : Bool
  threadId : Option Int
  messageId : Int
  fromUserId : Option Int
  chatId : Int
deriving DecidableEq, Repr

/-- The fields of a Telegram `Update` read by the producer handler. -/
structure TgUpdate where
  myChatMember : Option ChatMemberUpdated
  message : Option TgMessage
  editedMessage : Option TgMessage
deriving DecidableEq, Repr

/-- security.py `should_leave_group`: true iff the update carries a
`my_chat_member` transition from {left, kicked} to {member, administrator}
whose inviter is not allowed by the whitelist. -/
def should_leave_group (update : TgUpdate) (whitelist : List WEntry) : Bool :=
  match update.myChatMember with
  | none => false
  | some mu =>
    if (mu.oldStatus = "left" || mu.oldStatus = "kicked") &&
       (mu.newStatus = "member" || mu.newStatus = "administrator") then
      !(is_user_allowed mu.fromUserId whitelist)
    else
      false

/-- security.py `verify_telegram_secret_token`: no configured secret (unset or
empty) skips verification; a configured secret with an absent or empty request
header is rejected; otherwise the two strings are compared
(`hmac.compare_digest` is functionally string equality; its timing behaviour is
outside the model). -/
def verify_telegram_secret_token (requestToken expectedToken : Option String) : Bool :=
  match expectedToken with
  | none => true
  | some e =>
    if e = "" then true
    else
      match requestToken with
      | none => false
      | some r => if r = "" then false else r = e

/-! ## Python truthiness helpers -/

/-- Python truthiness of an optional string (`None` and `""` are falsy). -/
def pyTruthyStr : Option String → Bool
  | none => false
  | some s => s ≠ ""

/-- Python truthiness of an optional integer (`None` and `0` are falsy). -/
def pyTruthyInt : Option Int → Bool
  | none => false
  | some n => n ≠ 0

/-- Python `a or b` on optional strings. -/
def pyOrStr (a b : Option String) : Option String :=
  if pyTruthyStr a then a else b

/-- Python `a or b` on optional integers. -/
def pyOrInt (a b : Option Int) : Option Int :=
  if pyTruthyInt a then a else b

/-- Python `a or b` on optional objects (an object is truthy unless `None`). -/
def pyOrOpt {α : Type} (a b : Option α) : Option α :=
  match a with
  | some x => some x
  | none => b

/-- Python `o or ''` (used for the loaded session id). -/
def pyOrEmpty : Option String → String
  | none => ""
  | some s => s

/-! ## config.py: TOML configuration loading -/

/-- A parsed TOML value as produced by `tomllib.load`.  `other` stands for the
remaining Python types (floats, dates) that none of the `isinstance` checks in
config.py accept. -/
inductive Toml where
  | str (s : String)
  | int (n : Int)
  | bool (b : Bool)
  | arr (l : List Toml)
  | table (t : List (String × Toml))
  | other

/-- Python `isinstance(v, dict)` for a TOML value. -/
def Toml.isDict : Toml → Bool
  | .table _ => true
  | _ => false

/-- Python `isinstance(v, list)` for a TOML value. -/
def Toml.isList : Toml → Bool
  | .arr _ => true
  | _ => false

/-- Python truthiness of a TOML value. -/
def Toml.truthy : Toml → Bool
  | .str s => s ≠ ""
  | .int n => n ≠ 0
  | .bool b => b
  | .arr l => !l.isEmpty
  | .table t => !t.isEmpty
  | .other => true

/-- Python `v == q` for a TOML value against a string literal: only a string
value can compare equal. -/
def Toml.eqStr : Toml → String → Bool
  | .str s, q => s = q
  | _, _ => false

/-- Python `d.get(k, default)` on a parsed TOML table. -/
def dictGet (d : List (String × Toml)) (k : String) (dflt : Toml) : Toml :=
  match d.lookup k with
  | some v => v
  | none => dflt

/-- The Python exceptions the embedding distinguishes. -/
inductive PyExn where
  | attributeError
deriving DecidableEq, Repr

/-- Python `v.get(k, default)` where `v` may be any TOML value: calling `.get`
on a non-dict raises `AttributeError` (config.py only catches `OSError` and
`TOMLDecodeError`, so this propagates). -/
def pyGetAttrGet (v : Toml) (k : String) (dflt : Toml) : Except PyExn Toml :=
  match v with
  | .table t => .ok (dictGet t k dflt)
  | _ => .error .attributeError

/-- config.py `LocalCommand`.  The dataclass declares `response`/`handler` as
`str`, but `_parse_local_command` stores whatever truthy TOML value the file
holds, so the fields carry the raw value here. -/
structure LocalCommand where
  type : String
  response : Toml := .str ""
  handler : Toml := .str ""

/-- config.py `_parse_local_command` name normalisation:
`f"/{name.lstrip('/')}" if not name.startswith('/') else name`. -/
def normCmd (name : String) : String :=
  if name.startsWith "/" then name
  else "/" ++ String.mk (name.data.dropWhile (fun c => c = '/'))

/-- config.py `_parse_local_command`: a string value is a legacy static
response; a table needs `type` of `static` (with truthy `response`) or
`handler` (with truthy `handler`); everything else is skipped. -/
def _parse_local_command (name : String) (value : Toml) : String × Option LocalCommand :=
  let cmd := normCmd name
  match value with
  | .str s => (cmd, some { type := "static", response := .str s })
  | .table t =>
    let cmdType := dictGet t "type" (.str "")
    if cmdType.eqStr "static" then
      let response := dictGet t "response" (.str "")
      if response.truthy then (cmd, some { type := "static", response := response })
      else (cmd, none)
    else if cmdType.eqStr "handler" then
      let handler := dictGet t "handler" (.str "")
      if handler.truthy then (cmd, some { type := "handler", handler := handler })
      else (cmd, none)
    else
      (cmd, none)
  | _ => (cmd, none)

/-- Python `dict[k] = v` on an association list: replace in place or append. -/
def upsert {α : Type} : List (String × α) → String → α → List (String × α)
  | [], k, v => [(k, v)]
  | (k', v') :: t, k, v =>
    if k' = k then (k, v) :: t else (k', v') :: upsert t k v

/-- The `agent_commands` branch of `_load_config`: a non-list value is replaced
by `[]`, then non-string entries are dropped. -/
def parseAgentCommands (raw : Toml) : List String :=
  match raw with
  | .arr l => l.filterMap (fun v => match v with | .str s => some s | _ => none)
  | _ => []

/-- The `local_commands` branch of `_load_config`: a non-table value is
replaced by `{}`, then each entry is parsed and inserted under its normalised
name (later duplicates overwrite, as for a Python dict). -/
def parseLocalCommands (raw : Toml) : List (String × LocalCommand) :=
  match raw with
  | .table t =>
    t.foldl (fun acc nv =>
      match _parse_local_command nv.1 nv.2 with
      | (cmd, some lc) => upsert acc cmd lc
      | (_, none) => acc) []
  | _ => []

/-- One whitelist entry of the `security.user_whitelist` validation loop:
the literal `all`, an integer, or a boolean (a Python `bool` passes
`isinstance(item, int)` and compares equal to 0/1); anything else is skipped. -/
def validWhitelistEntry : Toml → Option WEntry
  | .str s => if s = "all" then some .all else none
  | .int n => some (.user n)
  | .bool b => some (.user (if b then 1 else 0))
  | _ => none

/-- The `security.user_whitelist` branch of `_load_config`: a non-list value
falls back to `['all']`; otherwise entries are validated and an empty
validated list also falls back to `['all']`. -/
def parseWhitelist (raw : Toml) : List WEntry :=
  match raw with
  | .arr items =>
    let validated := items.filterMap validWhitelistEntry
    if validated = [] then [.all] else validated
  | _ => [.all]

/-- The state of the configuration file as seen by `_load_config`: absent,
unreadable (`OSError`) or undecodable (`TOMLDecodeError`), or parsed content. -/
inductive ConfigSource where
  | missing
  | readError
  | content (data : List (String × Toml))

/-- config.py `_load_config`: missing or unreadable files yield the safe
defaults; parsed content goes through the three branches above.  The two
`.get(...).get(...)` chains raise `AttributeError` when the top-level
`agent_commands` or `security` key holds a non-table value, and that exception
is not caught. -/
def _load_config (src : ConfigSource) :
    Except PyExn (List String × List (String × LocalCommand) × List WEntry) :=
  match src with
  | .missing => .ok ([], [], [.all])
  | .readError => .ok ([], [], [.all])
  | .content data => do
    let agentRaw ← pyGetAttrGet (dictGet data "agent_commands" (.table [])) "commands" (.arr [])
    let agentCommands := parseAgentCommands agentRaw
    let localCommands := parseLocalCommands (dictGet data "local_commands" (.table []))
    let wlRaw ← pyGetAttrGet (dictGet data "security" (.table [])) "user_whitelist"
      (.arr [.str "all"])
    let whitelist := parseWhitelist wlRaw
    .ok (agentCommands, localCommands, whitelist)

/-! ## handler.py: producer `lambda_handler` (webhook entry point)

External calls are modelled by outcome flags in `ProdEnv`.  A flag is `true`
when the corresponding call returns normally and `false` when it raises.
Calls whose exceptions the source catches on the relevant path keep no flag:
`_send_to_sqs_safe` catches every exception and returns a `Bool`,
`_on_bot_joined` wraps its whole body in `try/except`, and the static /
unknown-command replies in `_handle_local_command` are sent inside
`try/except`.  The three named local-command handlers (`newchat`, `start`,
`debug`) perform Telegram and SQS sub-flows with unwrapped awaits; their
execution is abstracted into the single outcome flag `handlerOk`. -/

/-- The webhook body after `json.loads` + `Update.de_json`: `malformed` is a
`JSONDecodeError`, `parsed none` a body that is not a Telegram update. -/
inductive WebhookBody where
  | malformed
  | parsed (update : Option TgUpdate)
deriving DecidableEq, Repr

/-- The parts of the API-gateway event the producer reads. -/
structure WebhookEvent where
  secretHeader : Option String
  body : WebhookBody
deriving DecidableEq, Repr

/-- Configuration and external-call outcomes for one producer invocation. -/
structure ProdEnv where
  expectedSecret : Option String
  agentCommands : List String
  localCommands : List (String × LocalCommand)
  whitelist : List WEntry
  queueOk : Bool
  leaveChatOk : Bool
  promotedNotifyOk : Bool
  generalTopicWarnOk : Bool
  handlerOk : Bool

/-- All Telegram API calls that the producer leaves unwrapped succeed. -/
def ProdEnv.telegramOk (env : ProdEnv) : Bool :=
  env.leaveChatOk && env.promotedNotifyOk && env.generalTopicWarnOk && env.handlerOk

/-- The observable outcome of one Lambda invocation: an HTTP response, or an
uncaught exception propagating out of the handler. -/
inductive LambdaResult where
  | response (statusCode : Nat)
  | raised
deriving DecidableEq, Repr

/-- handler.py `_handle_local_command` (lines 304-365): an unknown command or a
static command replies inside `try/except` and returns; a handler command
dispatches through `HANDLER_TYPE_HANDLERS` (`newchat`, `start`, `debug`) whose
body may raise; an unregistered handler name is only logged. -/
def handleLocalCommand (env : ProdEnv) (cmd : String) : LambdaResult :=
  match env.localCommands.lookup cmd with
  | none => .response 200
  | some lc =>
    if lc.type = "static" then .response 200
    else if lc.type = "handler" then
      match lc.handler with
      | .str h =>
        if h = "newchat" ∨ h = "start" ∨ h = "debug" then
          if env.handlerOk then .response 200 else .raised
        else .response 200
      | _ => .response 200
    else .response 200

/-- handler.py producer `lambda_handler` (lines 503-627), with config already
loaded into `env`. -/
def producer_lambda_handler (env : ProdEnv) (event : WebhookEvent) : LambdaResult :=
  if !(verify_telegram_secret_token event.secretHeader env.expectedSecret) then
    .response 401
  else
    match event.body with
    | .malformed => .response 200
    | .parsed none => .response 200
    | .parsed (some update) =>
      match update.myChatMember with
      | some mu =>
        if should_leave_group update env.whitelist then
          if env.leaveChatOk then .response 200 else .raised
        else if (mu.oldStatus = "left" || mu.oldStatus = "kicked") &&
                (mu.newStatus = "member" || mu.newStatus = "administrator") then
          .response 200
        else if mu.oldStatus = "member" && mu.newStatus = "administrator" then
          if env.promotedNotifyOk then .response 200 else .raised
        else .response 200
      | none =>
        match pyOrOpt update.message update.editedMessage with
        | none => .response 200
        | some msg =>
          if !pyTruthyStr msg.text then .response 200
          else
          let text := pyOrEmpty msg.text
          if msg.chatType = "private" &&
             (match msg.fromUserId with
              | some uid => uid ≠ 0 && !(is_user_allowed uid env.whitelist)
              | none => false) then .response 200
          else if (msg.chatType = "group" || msg.chatType = "supergroup") &&
                  !msg.isForum then .response 200
          else if (msg.chatType = "group" || msg.chatType = "supergroup") &&
                  msg.isForum &&
                  (msg.threadId = none || msg.threadId = some 1) &&
                  !(text.startsWith "/") then
            if env.generalTopicWarnOk then .response 200 else .raised
          else
            match extract_command (some text) with
            | some cmd =>
              if (env.localCommands.lookup cmd).isSome then
                handleLocalCommand env cmd
              else if !(env.agentCommands.contains cmd) then
                handleLocalCommand env cmd
              else
                .response 200
            | none => .response 200

/-! ## consumer.py: worker `process_message` -/

/-- The JSON body returned by the Agent Server as the consumer reads it with
`result.get(...)`: a field is `none` when the key is absent. -/
structure AgentHttpResult where
  response : Option String
  is_error : Option Bool
  error_message : Option String
deriving DecidableEq, Repr

/-- Python truthiness of `result.get('is_error')`. -/
def pyTruthyB : Option Bool → Bool
  | none => false
  | some b => b

/-- The outcome of `call_agent_server()`: a parsed JSON result, an
`httpx.TimeoutException`, or any other exception with its `str(e)` text
(this includes the `raise_for_status` error for a non-2xx reply). -/
inductive GatewayOutcome where
  | ok (r : AgentHttpResult)
  | timeout
  | failure (errText : String)

/-- The outcome of the final `bot.send_message` call: success, a `BadRequest`
whose text contains `parse entities` (handled by the plain-text fallback), or
any other exception (re-raised / propagated). -/
inductive FinalSendOutcome where
  | ok
  | badParseEntities
  | raiseOther
deriving DecidableEq, Repr

/-- External-call outcomes for one `process_message` run.  `md` abstracts the
markup pipeline `fix_unescaped_chars ∘ fix_code_escaping ∘ markdownify ∘
fix_heading_bold` applied before the final send. -/
structure ConsumerEnv where
  gateway : GatewayOutcome
  timeoutNoticeOk : Bool
  errorNoticeOk : Bool
  finalSend : FinalSendOutcome
  fallbackOk : Bool
  md : String → String

/-- The queue message joined with the reconstructed Telegram update:
`message_data.get('text') / .get('thread_id')` may override the original
message's text and thread. -/
structure MsgIn where
  hasMessage : Bool
  textOverride : Option String
  msgText : Option String
  threadOverride : Option Int
  msgThreadId : Option Int
  messageId : Int
  chatId : Int

/-- The exception (if any) that propagates out of `process_message`. -/
inductive ConsumerExn where
  | timeoutExn
  | sendExn
  | badRequestExn
deriving DecidableEq, Repr

/-- Observable effects of one `process_message` run: the texts of the
successful `bot.send_message` calls in order, the formatted reply text before
markup conversion (when that line is reached), whether the typing task was
started and whether it was cancelled-and-awaited, whether the gateway was
called, and the propagated exception if any. -/
structure ConsumerOut where
  sent : List String
  finalText : Option String
  typingStarted : Bool
  typingJoined : Bool
  gatewayCalled : Bool
  raised : Option ConsumerExn
deriving Repr

/-- consumer.py lines 212-256: format the result dict, truncate to 4000
characters, convert markup, and send (with the plain-text fallback on a
`parse entities` `BadRequest`).  Runs after the `finally` block, so the typing
task is already joined. -/
def consumerReply (env : ConsumerEnv) (result : AgentHttpResult)
    (sent0 : List String) : ConsumerOut :=
  let text :=
    if pyTruthyB result.is_error then
      "Agent error: " ++ result.error_message.getD "Unknown"
    else
      match result.response with
      | some s => if s = "" then "No response" else s
      | none => "No response"
  let text := if text.length > 4000 then pyTake 4000 text ++ "\n\n... (truncated)" else text
  let telegramText := env.md text
  match env.finalSend with
  | .ok =>
    { sent := sent0 ++ [telegramText], finalText := some text, typingStarted := true,
      typingJoined := true, gatewayCalled := true, raised := none }
  | .badParseEntities =>
    if env.fallbackOk then
      { sent := sent0 ++ [text], finalText := some text, typingStarted := true,
        typingJoined := true, gatewayCalled := true, raised := none }
    else
      { sent := sent0, finalText := some text, typingStarted := true,
        typingJoined := true, gatewayCalled := true, raised := some .sendExn }
  | .raiseOther =>
    { sent := sent0, finalText := some text, typingStarted := true,
      typingJoined := true, gatewayCalled := true, raised := some .badRequestExn }

/-- The default result dict `process_message` starts from, used when the
gateway call fails. -/
def defaultAgentResult : AgentHttpResult :=
  { response := some "", is_error := some true,
    error_message := some "Failed to get response from Agent Server" }

/-- consumer.py `process_message` (lines 116-256).  An update without a
message returns before the typing task is created.  Otherwise the typing task
is started, the gateway is called inside `try/except/finally`: a timeout sends
a notice and re-raises; any other exception sends a truncated error text
inside its own `try/except` and falls through with the default error result;
the `finally` block cancels and awaits the typing task on every path. -/
def process_message (env : ConsumerEnv) (m : MsgIn) : ConsumerOut :=
  if !m.hasMessage then
    { sent := [], finalText := none, typingStarted := false, typingJoined := false,
      gatewayCalled := false, raised := none }
  else
    match env.gateway with
    | .ok r => consumerReply env r []
    | .timeout =>
      if env.timeoutNoticeOk then
        { sent := ["Request timed out."], finalText := none, typingStarted := true,
          typingJoined := true, gatewayCalled := true, raised := some .timeoutExn }
      else
        { sent := [], finalText := none, typingStarted := true,
          typingJoined := true, gatewayCalled := true, raised := some .sendExn }
    | .failure e =>
      let errText := "Error: " ++ pyTake 200 e
      let sent0 := if env.errorNoticeOk then [errText] else []
      consumerReply env defaultAgentResult sent0

/-! ## Dedup gate and gated delivery processing (modelled from the spec) -/

/-- Modelled from the spec: the Dedup Gate implementation
(`is_message_duplicate`, exercised by `tests/test_message_dedup.py`) is not
present under `src/` — only its unit tests are.  Per spec §4.4 and the tests,
the store maps `message_key = conversation_id:message_id` to its `created_at`
time, records carry a 24-hour TTL, and admission is an atomic conditional
insert (`attribute_not_exists`), never read-then-write. -/
structure DedupStore where
  recs : List (String × Nat)

/-- The dedup key `conversation_id:message_id` (test:
`Item['message_key'] == '12345:67890'`). -/
def dedupKey (chatId messageId : Int) : String :=
  toString chatId ++ ":" ++ toString messageId

/-- The 24-hour retention window (test: `ttl == created_at + 86400`). -/
def dedupTTL : Nat := 86400

/-- Modelled from the spec: `claim(conversation_id, message_id)` — the atomic
conditional insert.  Within the retention window an existing record yields
`alreadyClaimed`; otherwise the record is (re)inserted and the caller holds
the first claim. -/
inductive ClaimOutcome where
  | firstClaim
  | alreadyClaimed
deriving DecidableEq, Repr

/-- Modelled from the spec: one atomic `claim` call at time `now`. -/
def claimMessage (store : DedupStore) (chatId messageId : Int) (now : Nat) :
    ClaimOutcome × DedupStore :=
  let key := dedupKey chatId messageId
  match store.recs.lookup key with
  | some created =>
    if now < created + dedupTTL then (.alreadyClaimed, store)
    else (.firstClaim, ⟨upsert store.recs key now⟩)
  | none => (.firstClaim, ⟨upsert store.recs key now⟩)

/-- Modelled from the spec: a queue delivery processed behind the Dedup Gate
(§4.4: `AlreadyClaimed` causes the caller to skip all side effects — no reply,
no agent call); a first claim runs the worker `process_message` from
consumer.py. -/
def processDeliveryGated (store : DedupStore) (env : ConsumerEnv) (m : MsgIn)
    (now : Nat) : ConsumerOut × DedupStore :=
  match claimMessage store m.chatId m.messageId now with
  | (.alreadyClaimed, s') =>
    ({ sent := [], finalText := none, typingStarted := false, typingJoined := false,
       gatewayCalled := false, raised := none }, s')
  | (.firstClaim, s') => (process_message env m, s')

/-! ## agent-sdk-server: `agent_session.process_message` and `lambda_handler` -/

/-- A `ResultMessage` from the Agent SDK stream (the fields agent_session.py
reads; `total_cost_usd` is a float and is not carried by the model). -/
structure SdkResultMsg where
  sessionId : String
  numTurns : Nat
  isErr : Bool
  resultText : Option String
deriving DecidableEq, Repr

/-- One message yielded by `query(...)`: an `AssistantMessage` with the texts
of its `TextBlock`s, or a `ResultMessage`. -/
inductive SdkMsg where
  | assistant (texts : List String)
  | res (r : SdkResultMsg)
deriving DecidableEq, Repr

/-- One run of the SDK `async for` loop: the messages consumed, and the
`str(e)` of an exception raised after them (if the iteration raised). -/
structure SdkRun where
  msgs : List SdkMsg
  exn : Option String
deriving DecidableEq, Repr

/-- Accumulator of agent_session.py `process_message` (lines 181-186). -/
structure AgentAcc where
  responseTexts : List String
  rsid : String
  numTurns : Nat
  isErr : Bool
  errMsg : Option String

/-- The dict agent_session.py `process_message` returns. -/
structure AgentProcResult where
  response : String
  session_id : String
  num_turns : Nat
  is_error : Bool
  error_message : Option String
deriving DecidableEq, Repr

/-- The loop body of agent_session.py lines 192-206: assistant text blocks are
accumulated; a `ResultMessage` overwrites session id, turn count and error
flag, and sets `error_message` only when `is_error` holds and `message.result`
is truthy. -/
def agentStep (acc : AgentAcc) : SdkMsg → AgentAcc
  | .assistant ts => { acc with responseTexts := acc.responseTexts ++ ts }
  | .res r =>
    { acc with
      rsid := r.sessionId
      numTurns := r.numTurns
      isErr := r.isErr
      errMsg := if r.isErr && pyTruthyStr r.resultText then r.resultText else acc.errMsg }

/-- agent_session.py `process_message` (lines 127-223): `result_session_id`
starts as `session_id or ''`, the stream is folded with `agentStep`, an
exception during iteration is caught and turns the result into an error while
keeping the accumulated state, and the dict is assembled at the end. -/
def agent_process_message (sessionId : Option String) (run : SdkRun) : AgentProcResult :=
  let acc : AgentAcc :=
    { responseTexts := [], rsid := pyOrEmpty sessionId, numTurns := 0,
      isErr := false, errMsg := none }
  let acc := run.msgs.foldl agentStep acc
  let acc :=
    match run.exn with
    | some e => { acc with isErr := true, errMsg := some e }
    | none => acc
  { response := String.intercalate "\n" acc.responseTexts
    session_id := acc.rsid
    num_turns := acc.numTurns
    is_error := acc.isErr
    error_message := acc.errMsg }

/-- Modelled from the spec: `SessionStore` (imported by the server handler) is
not present under `src/`.  Per spec §4.6 it is a durable key-value mapping
from conversation key to resume token; the conversation key joins the chat id
and the thread id (with a fixed default for a missing thread, as in the
client's `_handle_debug_async`). -/
def sessionKey (chatId : String) (threadId : Option String) : String :=
  chatId ++ ":" ++ threadId.getD "default"

/-- The request body of the server endpoint after `json.loads`. -/
inductive ServerBody where
  | malformed
  | parsed (userMessage : String) (chatId : String) (threadId : Option String)
deriving DecidableEq, Repr

/-- One server request: the `Authorization` header value and the body. -/
structure ServerRequest where
  authHeader : String
  body : ServerBody
deriving DecidableEq, Repr

/-- The outcome of `asyncio.run(process_message(...))` in the server handler:
a completed SDK run, or an exception escaping `process_message` (e.g. from
`load_mcp_servers`). -/
inductive AgentRunOutcome where
  | ok (run : SdkRun)
  | raisedWith (e : String)

/-- Server-side state and external-call outcomes: the session table
(conversation key ↦ stored session id), the SDK run, and whether the S3/Dynamo
calls succeed (`download_session_files`, `save_session_id`,
`upload_session_files`). -/
structure ServerEnv where
  authToken : String
  storeTable : List (String × String)
  agentRun : AgentRunOutcome
  downloadOk : Bool
  saveOk : Bool
  uploadOk : Bool

/-- Observable outcome of one server invocation: status code, the
`session_id` and `is_error` fields of the response body (when present), and
the session table afterwards. -/
structure ServerOut where
  statusCode : Nat
  bodySessionId : Option String
  bodyIsError : Option Bool
  storeTable : List (String × String)

/-- Python `result_session_id != session_id` where `session_id` is `None` or a
string. -/
def neqOpt (rs : String) (sid : Option String) : Bool :=
  match sid with
  | none => true
  | some s => rs ≠ s

/-- agent-sdk-server/handler.py `lambda_handler` (lines 18-138): bearer-token
check, body validation, session lookup, optional download (a failure is a 500),
the agent call (an escaping exception is a 500 whose body echoes the loaded
session id), then the conditional save — only a non-empty result session id
that differs from the loaded one is written, and a failed save or upload is
logged and ignored. -/
def server_lambda_handler (env : ServerEnv) (req : ServerRequest) : ServerOut :=
  if req.authHeader ≠ "Bearer " ++ env.authToken then
    { statusCode := 401, bodySessionId := none, bodyIsError := none,
      storeTable := env.storeTable }
  else
    match req.body with
    | .malformed =>
      { statusCode := 400, bodySessionId := none, bodyIsError := none,
        storeTable := env.storeTable }
    | .parsed userMessage chatId threadId =>
      if userMessage = "" ∨ chatId = "" then
        { statusCode := 400, bodySessionId := none, bodyIsError := none,
          storeTable := env.storeTable }
      else
        let key := sessionKey chatId threadId
        let sessionId := env.storeTable.lookup key
        if pyTruthyStr sessionId && !env.downloadOk then
          { statusCode := 500, bodySessionId := none, bodyIsError := none,
            storeTable := env.storeTable }
        else
          match env.agentRun with
          | .raisedWith _ =>
            { statusCode := 500, bodySessionId := sessionId, bodyIsError := some true,
              storeTable := env.storeTable }
          | .ok run =>
            let result := agent_process_message sessionId run
            let rs := result.session_id
            let store' :=
              if rs ≠ "" && neqOpt rs sessionId then
                if env.saveOk then upsert env.storeTable key rs else env.storeTable
              else env.storeTable
            { statusCode := 200, bodySessionId := some rs,
              bodyIsError := some result.is_error, storeTable := store' }

/-! ## Helper lemmas -/

theorem rstripL_cons_of_not_ws (c : Char) (l : List Char) (h : isPyWs c = false) :
    rstripL (c :: l) = c :: rstripL l := by
  cases h' : rstripL l with
  | nil => simp [rstripL, h', h]
  | cons a t => simp [rstripL, h']

theorem rstripL_append_not_ws (xs ys : List Char) (h : ∀ c ∈ xs, isPyWs c = false) :
    rstripL (xs ++ ys) = xs ++ rstripL ys := by
  induction xs with
  | nil => simp
  | cons c t ih =>
    have hc : isPyWs c = false := h c (by simp)
    have ht : ∀ x ∈ t, isPyWs x = false := fun x hx => h x (by simp [hx])
    simp [List.cons_append, rstripL_cons_of_not_ws c _ hc, ih ht]

theorem takeWhile_append_all {α : Type} (p : α → Bool) (xs ys : List α)
    (h : ∀ x ∈ xs, p x = true) :
    (xs ++ ys).takeWhile p = xs ++ ys.takeWhile p := by
  induction xs with
  | nil => simp
  | cons c t ih =>
    have hc : p c = true := h c (by simp)
    have ht : ∀ x ∈ t, p x = true := fun x hx => h x (by simp [hx])
    simp [List.cons_append, List.takeWhile_cons, hc, ih ht]

theorem dropWhile_cons_not (p : Char → Bool) (c : Char) (l : List Char)
    (h : p c = false) : (c :: l).dropWhile p = c :: l := by
  simp [List.dropWhile_cons, h]

theorem extractCommandL_none_of_head (l : List Char)
    (h : (stripL l).head? ≠ some '/') : extractCommandL l = none := by
  unfold extractCommandL
  by_cases hd : l = []
  · simp [hd]
  · simp only [hd, if_false]
    cases hs : stripL l with
    | nil => rfl
    | cons c rest =>
      rw [hs] at h
      have hc : ¬ c = '/' := fun hcc => h (by simp [hcc])
      simp [extractCommandCore, hc]

theorem extractCommandL_none_of_bare_slash (l : List Char)
    (h : firstWordL (stripL l) = ['/']) : extractCommandL l = none := by
  unfold extractCommandL
  by_cases hd : l = []
  · simp [hd]
  · simp only [hd, if_false]
    cases hs : stripL l with
    | nil => rfl
    | cons c rest =>
      rw [hs] at h
      by_cases hc : c = '/'
      · subst hc
        simp only [extractCommandCore, h]
        decide
      · simp [extractCommandCore, hc]

theorem stripL_all_not_ws (xs : List Char) (hx : xs ≠ [])
    (h : ∀ c ∈ xs, isPyWs c = false) : stripL xs = xs := by
  unfold stripL
  cases xs with
  | nil => simp at hx
  | cons c t =>
    rw [dropWhile_cons_not _ _ _ (h c (by simp))]
    have := rstripL_append_not_ws (c :: t) [] h
    simpa [rstripL] using this

theorem extractCommandCore_mention (cs w : List Char)
    (hno : ∀ c ∈ cs, isPyWs c = false ∧ c ≠ '@') (hne : cs ≠ []) :
    extractCommandCore ('/' :: (cs ++ '@' :: w)) = some ('/' :: cs) := by
  have hxs : ∀ c ∈ ('/' :: cs ++ ['@']), (fun c => !isPyWs c) c = true := by
    intro c hc
    simp only [List.cons_append, List.mem_cons, List.mem_append] at hc
    rcases hc with h | h | h
    · subst h; decide
    · simp [(hno c h).1]
    · rcases h with h | h
      · subst h; decide
      · simp at h
  have hfw : firstWordL ('/' :: (cs ++ '@' :: w)) =
      ('/' :: cs ++ ['@']) ++ w.takeWhile (fun c => !isPyWs c) := by
    unfold firstWordL
    have hsh : ('/' :: (cs ++ '@' :: w)) = ('/' :: cs ++ ['@']) ++ w := by simp
    rw [hsh, takeWhile_append_all _ _ _ hxs]
  have hcon : (('/' :: cs ++ ['@']) ++ w.takeWhile (fun c => !isPyWs c)).contains '@' = true := by
    simp [List.contains_iff_exists_mem_beq]
  have hat : ∀ c ∈ ('/' :: cs), (fun x : Char => decide (x ≠ '@')) c = true := by
    intro c hc
    simp only [List.mem_cons] at hc
    rcases hc with h | h
    · subst h; decide
    · simp [(hno c h).2]
  have htw : ((('/' :: cs ++ ['@']) ++ w.takeWhile (fun c => !isPyWs c)).takeWhile
      (fun x : Char => decide (x ≠ '@'))) = '/' :: cs := by
    have hsh : ('/' :: cs ++ ['@']) ++ w.takeWhile (fun c => !isPyWs c) =
        ('/' :: cs) ++ ('@' :: w.takeWhile (fun c => !isPyWs c)) := by simp
    rw [hsh, takeWhile_append_all _ _ _ hat]
    simp [List.takeWhile_cons]
  have hsc : stripL ('/' :: cs) = '/' :: cs := by
    apply stripL_all_not_ws _ (by simp)
    intro c hc
    simp only [List.mem_cons] at hc
    rcases hc with h | h
    · subst h; decide
    · exact (hno c h).1
  have hns : ('/' :: cs) ≠ ['/'] := by
    intro h
    apply hne
    simpa using h
  simp only [extractCommandCore, hfw, hcon, if_true, htw, hsc]
  simp [hns]

theorem lookup_upsert_self {α : Type} (l : List (String × α)) (k : String) (v : α) :
    (upsert l k v).lookup k = some v := by
  induction l with
  | nil =>
    have hb : (k == k) = true := beq_self_eq_true k
    simp [upsert, List.lookup, hb]
  | cons p t ih =>
    obtain ⟨k', v'⟩ := p
    by_cases hk : k' = k
    · subst hk
      have hb : (k' == k') = true := beq_self_eq_true k'
      simp [upsert, List.lookup, hb]
    · have hb : (k == k') = false := beq_eq_false_iff_ne.mpr (fun he => hk he.symm)
      simp [upsert, hk, List.lookup, hb, ih]

theorem lookup_upsert_ne {α : Type} (l : List (String × α)) (k k' : String) (v : α)
    (h : k' ≠ k) : (upsert l k v).lookup k' = l.lookup k' := by
  have hb : (k' == k) = false := beq_eq_false_iff_ne.mpr h
  induction l with
  | nil => simp [upsert, List.lookup, hb]
  | cons p t ih =>
    obtain ⟨k₁, v₁⟩ := p
    by_cases hk : k₁ = k
    · subst hk
      simp [upsert, List.lookup, hb]
    · simp [upsert, hk, List.lookup, ih]

/-! ## Claim theorems -/

/-- C8: `extract_command` returns `None` for `None` input, for empty input,
for every text that (after trimming surrounding whitespace) does not start
with the command prefix character `/`, and for every text whose first
whitespace-delimited token is exactly the prefix character. -/
theorem claim_C8 :
    extract_command none = none ∧
    extract_command (some "") = none ∧
    (∀ s : String, (stripL s.data).head? ≠ some '/' → extract_command (some s) = none) ∧
    (∀ s : String, firstWordL (stripL s.data) = ['/'] → extract_command (some s) = none) := by
  refine ⟨rfl, by decide, ?_, ?_⟩
  · intro s h
    have he : extract_command (some s) = (extractCommandL s.data).map (fun l => String.mk l) := rfl
    rw [he, extractCommandL_none_of_head s.data h]
    rfl
  · intro s h
    have he : extract_command (some s) = (extractCommandL s.data).map (fun l => String.mk l) := rfl
    rw [he, extractCommandL_none_of_bare_slash s.data h]
    rfl

/-- Witness for C8 at concrete inputs. -/
theorem claim_C8_witness :
    extract_command (some "hello world") = none ∧ extract_command (some "/ hello") = none :=
  ⟨claim_C8.2.2.1 "hello world" (by decide), claim_C8.2.2.2 "/ hello" (by decide)⟩

/-- C9: for every command token that starts with `/`, is not the bare prefix,
and contains no whitespace and no `@`, and every trailing text `rest`,
`extract_command` on `cmd ++ "@" ++ rest` strips exactly the platform-mention
suffix and returns the bare command token. -/
theorem claim_C9 (cmd rest : String) (h1 : cmd.data.head? = some '/')
    (h2 : cmd.data ≠ ['/']) (h3 : ∀ c ∈ cmd.data, isPyWs c = false ∧ c ≠ '@') :
    extract_command (some (cmd ++ "@" ++ rest)) = some cmd := by
  obtain ⟨cs, hcs⟩ : ∃ cs, cmd.data = '/' :: cs := by
    cases hd : cmd.data with
    | nil => rw [hd] at h1; simp at h1
    | cons c t =>
      rw [hd] at h1
      simp only [List.head?_cons, Option.some.injEq] at h1
      exact ⟨t, by rw [h1]⟩
  have hne : cs ≠ [] := by
    intro hnil
    exact h2 (by rw [hcs, hnil])
  have hdata : (cmd ++ "@" ++ rest).data = '/' :: (cs ++ '@' :: rest.data) := by
    simp [hcs]
  have hcore := extractCommandCore_mention cs rest.data
    (fun c hc => h3 c (by rw [hcs]; exact List.mem_cons_of_mem _ hc)) hne
  have hlist : extractCommandL ((cmd ++ "@" ++ rest).data) = some ('/' :: cs) := by
    unfold extractCommandL
    rw [hdata]
    rw [if_neg (by simp)]
    have hstrip : stripL ('/' :: (cs ++ '@' :: rest.data)) =
        '/' :: (cs ++ '@' :: rstripL rest.data) := by
      unfold stripL
      rw [dropWhile_cons_not _ _ _ (by decide)]
      have hsh : ('/' :: (cs ++ '@' :: rest.data)) = ('/' :: cs ++ ['@']) ++ rest.data := by
        simp
      rw [hsh, rstripL_append_not_ws _ _ (by
        intro c hc
        simp only [List.cons_append, List.mem_cons, List.mem_append] at hc
        rcases hc with h | h | h
        · subst h; decide
        · exact ((fun c hc => h3 c (by rw [hcs]; exact List.mem_cons_of_mem _ hc)) c h).1
        · rcases h with h | h
          · subst h; decide
          · simp at h)]
      simp
    rw [hstrip, extractCommandCore_mention cs (rstripL rest.data)
      (fun c hc => h3 c (by rw [hcs]; exact List.mem_cons_of_mem _ hc)) hne]
  have he : extract_command (some (cmd ++ "@" ++ rest)) =
      (extractCommandL (cmd ++ "@" ++ rest).data).map (fun l => String.mk l) := rfl
  rw [he, hlist]
  show some (String.mk ('/' :: cs)) = some cmd
  rw [← hcs]

/-- Witness for C9 at a concrete command and mention suffix. -/
theorem claim_C9_witness : extract_command (some ("/cmd" ++ "@" ++ "bot arg")) = some "/cmd" :=
  claim_C9 "/cmd" "bot arg" (by decide) (by decide) (by decide)

/-- C7: `should_leave_group` returns true iff the update carries a membership
transition that is a join (old status in {left, kicked}, new status in
{member, administrator}) whose inviter is not allowed by the whitelist; in
particular a kicked→member transition by a non-whitelisted inviter yields
true, the same transition by a whitelisted inviter yields false, and any
non-join transition yields false. -/
theorem claim_C7 (u : TgUpdate) (wl : List WEntry) :
    should_leave_group u wl = true ↔
      ∃ mu, u.myChatMember = some mu ∧
        (mu.oldStatus = "left" ∨ mu.oldStatus = "kicked") ∧
        (mu.newStatus = "member" ∨ mu.newStatus = "administrator") ∧
        is_user_allowed mu.fromUserId wl = false := by
  cases h : u.myChatMember with
  | none => simp [should_leave_group, h]
  | some mu =>
    simp only [should_leave_group, h, Option.some.injEq]
    by_cases hcond : ((mu.oldStatus = "left" || mu.oldStatus = "kicked") &&
        (mu.newStatus = "member" || mu.newStatus = "administrator")) = true
    · rw [if_pos hcond]
      simp only [Bool.and_eq_true, Bool.or_eq_true, decide_eq_true_eq] at hcond
      constructor
      · intro hres
        exact ⟨mu, rfl, hcond.1, hcond.2, by simpa using hres⟩
      · rintro ⟨mu', hmu, _, _, hall⟩
        cases hmu
        simp [hall]
    · rw [if_neg hcond]
      constructor
      · intro hres
        exact absurd hres (by decide)
      · rintro ⟨mu', hmu, hold, hnew, _⟩
        cases hmu
        exfalso
        apply hcond
        rcases hold with h1 | h1 <;> rcases hnew with h2 | h2 <;> simp [h1, h2]

/-! ### C10: configuration loading -/

theorem isDict_iff (v : Toml) : v.isDict = true ↔ ∃ t, v = .table t := by
  cases v <;> simp [Toml.isDict]

/-- Counterexample for C10: a configuration file whose top-level
`agent_commands` key holds a non-table value makes `_load_config` raise
`AttributeError` (only `OSError` and `TOMLDecodeError` are caught) instead of
degrading to the safe defaults. -/
theorem claim_C10_counterexample :
    _load_config (.content [("agent_commands", Toml.int 5)]) = .error .attributeError := rfl

/-- C10 (amended): configuration loading returns safe defaults for a missing
or unreadable/undecodable file, and — provided the top-level `agent_commands`
and `security` keys, when present, hold tables — never raises; within that, a
non-list `commands` field yields the empty agent command list, a non-table
`local_commands` yields the empty local command table, and a non-list or
all-invalid `user_whitelist` yields the allow-all whitelist.  (A non-table
top-level `agent_commands` or `security` value raises `AttributeError`, as
the counterexample shows.) -/
theorem claim_C10_amended :
    _load_config .missing = .ok ([], [], [.all]) ∧
    _load_config .readError = .ok ([], [], [.all]) ∧
    (∀ data, (dictGet data "agent_commands" (.table [])).isDict = true →
             (dictGet data "security" (.table [])).isDict = true →
       ∃ out, _load_config (.content data) = .ok out) ∧
    (∀ raw, raw.isList = false → parseAgentCommands raw = []) ∧
    (∀ raw, raw.isDict = false → parseLocalCommands raw = []) ∧
    (∀ raw, raw.isList = false → parseWhitelist raw = [.all]) ∧
    (∀ items, (∀ it ∈ items, validWhitelistEntry it = none) →
       parseWhitelist (.arr items) = [.all]) := by
  refine ⟨rfl, rfl, ?_, ?_, ?_, ?_, ?_⟩
  · intro data h1 h2
    obtain ⟨t1, hac⟩ := (isDict_iff _).mp h1
    obtain ⟨t2, hsec⟩ := (isDict_iff _).mp h2
    refine ⟨(parseAgentCommands (dictGet t1 "commands" (.arr [])),
      parseLocalCommands (dictGet data "local_commands" (.table [])),
      parseWhitelist (dictGet t2 "user_whitelist" (.arr [.str "all"]))), ?_⟩
    simp [_load_config, hac, hsec, pyGetAttrGet, bind, Except.bind]
  · intro raw h
    cases raw <;> simp_all [parseAgentCommands, Toml.isList]
  · intro raw h
    cases raw <;> simp_all [parseLocalCommands, Toml.isDict]
  · intro raw h
    cases raw <;> simp_all [parseWhitelist, Toml.isList]
  · intro items h
    simp [parseWhitelist, List.filterMap_eq_nil_iff.mpr h]

/-- Witness for C10 (amended) at concrete configuration values. -/
theorem claim_C10_witness :
    (∃ out, _load_config (.content
      [("agent_commands", Toml.table [("commands", Toml.str "x")]),
       ("security", Toml.table [("user_whitelist", Toml.int 3)])]) = .ok out) ∧
    parseAgentCommands (Toml.str "x") = [] ∧
    parseLocalCommands (Toml.int 7) = [] ∧
    parseWhitelist (Toml.int 3) = [.all] ∧
    parseWhitelist (Toml.arr [Toml.str "bob"]) = [.all] :=
  ⟨claim_C10_amended.2.2.1 _ rfl rfl,
   claim_C10_amended.2.2.2.1 _ rfl,
   claim_C10_amended.2.2.2.2.1 _ rfl,
   claim_C10_amended.2.2.2.2.2.1 _ rfl,
   claim_C10_amended.2.2.2.2.2.2 _ (by
     intro it hit
     simp only [List.mem_singleton] at hit
     subst hit
     rfl)⟩

/-! ### C2: producer acknowledgment contract -/

theorem handleLocalCommand_ok (env : ProdEnv) (cmd : String) (h : env.handlerOk = true) :
    handleLocalCommand env cmd = .response 200 := by
  unfold handleLocalCommand
  cases env.localCommands.lookup cmd with
  | none => rfl
  | some lc =>
    by_cases h1 : lc.type = "static"
    · simp [h1]
    · by_cases h2 : lc.type = "handler"
      · simp only [h1, if_false, h2, if_true]
        cases lc.handler with
        | str s =>
          by_cases h3 : s = "newchat" ∨ s = "start" ∨ s = "debug"
          · simp [h3, h]
          · simp [h3]
        | int n => rfl
        | bool b => rfl
        | arr l => rfl
        | table t => rfl
        | other => rfl
      · simp [h1, h2]

/-- Counterexample for C2: with secret verification succeeding (no secret
configured), an authorized-group violation whose `bot.leave_chat` call raises
makes the producer `lambda_handler` propagate the exception — the webhook gets
neither the 200 acknowledgment nor a 401. -/
theorem claim_C2_counterexample :
    producer_lambda_handler
      { expectedSecret := none, agentCommands := [], localCommands := [],
        whitelist := [], queueOk := true, leaveChatOk := false,
        promotedNotifyOk := true, generalTopicWarnOk := true, handlerOk := true }
      { secretHeader := none,
        body := .parsed (some
          { myChatMember := some
              { oldStatus := "kicked", newStatus := "member", fromUserId := 99, chatId := 5 },
            message := none, editedMessage := none }) } = .raised ∧
    verify_telegram_secret_token none none = true :=
  ⟨rfl, rfl⟩

/-- C2 (amended): provided the unwrapped Telegram API calls on the handling
path (`leave_chat`, the promotion notifications, the General-Topic warning,
and the named local-command handlers) do not raise, the producer
`lambda_handler` returns 200 for every webhook event whose secret verification
succeeds — including malformed JSON bodies and enqueue failures — and 401 if
and only if secret verification fails. -/
theorem claim_C2_amended (env : ProdEnv) (event : WebhookEvent)
    (h : env.telegramOk = true) :
    producer_lambda_handler env event =
      (if verify_telegram_secret_token event.secretHeader env.expectedSecret = true
       then .response 200 else .response 401) := by
  have hs : env.leaveChatOk = true ∧ env.promotedNotifyOk = true ∧
      env.generalTopicWarnOk = true ∧ env.handlerOk = true := by
    simpa [ProdEnv.telegramOk, Bool.and_eq_true, and_assoc] using h
  obtain ⟨h1, h2, h3, h4⟩ := hs
  by_cases hv : verify_telegram_secret_token event.secretHeader env.expectedSecret = true
  · rw [if_pos hv]
    unfold producer_lambda_handler
    rw [hv]
    simp only [Bool.not_true, Bool.false_eq_true, if_false]
    (repeat' split) <;> first
      | rfl
      | (exact handleLocalCommand_ok _ _ h4)

  · rw [if_neg hv]
    unfold producer_lambda_handler
    simp only [Bool.not_eq_true] at hv
    rw [hv]
    rfl

/-- Witness for C2 (amended): a plain-text message event with a failing
enqueue still gets the 200 acknowledgment. -/
theorem claim_C2_witness :
    producer_lambda_handler
      { expectedSecret := some "s3cret", agentCommands := [], localCommands := [],
        whitelist := [.all], queueOk := false, leaveChatOk := true,
        promotedNotifyOk := true, generalTopicWarnOk := true, handlerOk := true }
      { secretHeader := some "s3cret",
        body := .parsed (some
          { myChatMember := none,
            message := some
              { text := some "hello", chatType := "private", isForum := false,
                threadId := none, messageId := 7, fromUserId := some 42, chatId := 1 },
            editedMessage := none }) } = .response 200 := by
  have h := claim_C2_amended
    { expectedSecret := some "s3cret", agentCommands := [], localCommands := [],
      whitelist := [.all], queueOk := false, leaveChatOk := true,
      promotedNotifyOk := true, generalTopicWarnOk := true, handlerOk := true }
    { secretHeader := some "s3cret",
      body := .parsed (some
        { myChatMember := none,
          message := some
            { text := some "hello", chatType := "private", isForum := false,
              threadId := none, messageId := 7, fromUserId := some 42, chatId := 1 },
          editedMessage := none }) }
    rfl
  rw [h]
  rfl

/-! ### C3, C4, C5: worker error handling and task cancellation -/

/-- C3: for every claimed job, a gateway timeout makes the worker propagate an
exception (triggering the queue retry), and when the timeout-notice send
succeeds the propagated exception is the timeout itself and the only message
sent is the timeout notice; any other gateway exception is not re-raised
(given the final reply send succeeds, `process_message` returns normally, so
the job is not retried) and, when the error-notice send succeeds, the
truncated error text `"Error: " ++ str(e)[:200]` is among the sent messages. -/
theorem claim_C3 (env : ConsumerEnv) (m : MsgIn) (hm : m.hasMessage = true) :
    (env.gateway = .timeout →
       (process_message env m).raised.isSome = true ∧
       (env.timeoutNoticeOk = true →
          (process_message env m).raised = some .timeoutExn ∧
          (process_message env m).sent = ["Request timed out."])) ∧
    (∀ e, env.gateway = .failure e → env.finalSend = .ok →
       (process_message env m).raised = none ∧
       (env.errorNoticeOk = true →
          ("Error: " ++ pyTake 200 e) ∈ (process_message env m).sent)) := by
  constructor
  · intro hg
    simp only [process_message, hm, hg, Bool.not_true, Bool.false_eq_true, if_false]
    by_cases ht : env.timeoutNoticeOk = true
    · simp [ht]
    · simp [ht]
  · intro e hg hf
    simp only [process_message, hm, hg, Bool.not_true, Bool.false_eq_true, if_false]
    unfold consumerReply
    rw [hf]
    constructor
    · rfl
    · intro he
      simp [he]

/-- Witness for C3 at a concrete job, once per gateway outcome. -/
theorem claim_C3_witness :
    (process_message
       { gateway := .timeout, timeoutNoticeOk := true, errorNoticeOk := true,
         finalSend := .ok, fallbackOk := true, md := fun s => s }
       { hasMessage := true, textOverride := none, msgText := some "hi",
         threadOverride := none, msgThreadId := none, messageId := 1, chatId := 2 }).raised
      = some .timeoutExn ∧
    ("Error: " ++ pyTake 200 "boom") ∈ (process_message
       { gateway := .failure "boom", timeoutNoticeOk := true, errorNoticeOk := true,
         finalSend := .ok, fallbackOk := true, md := fun s => s }
       { hasMessage := true, textOverride := none, msgText := some "hi",
         threadOverride := none, msgThreadId := none, messageId := 1, chatId := 2 }).sent := by
  constructor
  · exact (((claim_C3 _ _ rfl).1 rfl).2 rfl).1
  · exact ((claim_C3 _ _ rfl).2 "boom" rfl rfl).2 rfl

/-- C4 (implicit): when the gateway raises a non-timeout exception and the
Telegram sends succeed, the user gets two messages for the one failure: the
truncated exception text, then the formatted default-error reply whose source
text is exactly `Agent error: Failed to get response from Agent Server`
(sent through the markup pipeline `md`), and `process_message` returns
normally. -/
theorem claim_C4 (env : ConsumerEnv) (m : MsgIn) (e : String) (hm : m.hasMessage = true)
    (hg : env.gateway = .failure e) (he : env.errorNoticeOk = true)
    (hf : env.finalSend = .ok) :
    (process_message env m).sent =
      ["Error: " ++ pyTake 200 e,
       env.md "Agent error: Failed to get response from Agent Server"] ∧
    (process_message env m).finalText =
      some "Agent error: Failed to get response from Agent Server" ∧
    (process_message env m).raised = none := by
  simp only [process_message, hm, hg, Bool.not_true, Bool.false_eq_true, if_false]
  unfold consumerReply defaultAgentResult
  rw [hf]
  have hlen : ¬ (4000 < ("Agent error: Failed to get response from Agent Server".length)) := by
    decide
  simp [he, pyTruthyB, hlen]

/-- Witness for C4 at a concrete job and exception text. -/
theorem claim_C4_witness :
    (process_message
       { gateway := .failure "boom", timeoutNoticeOk := true, errorNoticeOk := true,
         finalSend := .ok, fallbackOk := true, md := fun s => s }
       { hasMessage := true, textOverride := none, msgText := some "hi",
         threadOverride := none, msgThreadId := none, messageId := 1, chatId := 2 }).sent =
      ["Error: " ++ pyTake 200 "boom",
       "Agent error: Failed to get response from Agent Server"] := by
  have h := claim_C4
    { gateway := .failure "boom", timeoutNoticeOk := true, errorNoticeOk := true,
      finalSend := .ok, fallbackOk := true, md := fun s => s }
    { hasMessage := true, textOverride := none, msgText := some "hi",
      threadOverride := none, msgThreadId := none, messageId := 1, chatId := 2 }
    "boom" rfl rfl rfl rfl
  exact h.1

/-- C5: the activity-indicator (typing) task is cancelled and awaited exactly
when it was started — on every exit path of `process_message` (success,
gateway timeout, any other exception, and every final-send outcome), so the
task is joined before the function returns and no tick can fire afterwards. -/
theorem claim_C5 (env : ConsumerEnv) (m : MsgIn) :
    (process_message env m).typingJoined = (process_message env m).typingStarted := by
  unfold process_message consumerReply
  (repeat' split) <;> rfl

/-! ### C1: exactly-once admission of duplicate deliveries -/

/-- C1: for a pair of queue deliveries carrying identical conversation and
message ids, with no prior claim for that key, the first delivery is admitted
by the atomic conditional insert (the gateway is invoked and — with a
successful reply send — exactly one reply goes out) and the second delivery,
arriving within the 24-hour retention window, is `AlreadyClaimed` and skips
every side effect: no gateway call and no reply, whatever its own
environment. -/
theorem claim_C1 (store : DedupStore) (env env2 : ConsumerEnv) (m : MsgIn)
    (r : AgentHttpResult) (t1 t2 : Nat)
    (hfresh : store.recs.lookup (dedupKey m.chatId m.messageId) = none)
    (hm : m.hasMessage = true)
    (hgw : env.gateway = .ok r)
    (hsend : env.finalSend = .ok)
    (hwin : t2 < t1 + dedupTTL) :
    ((processDeliveryGated store env m t1).1.gatewayCalled = true ∧
     (processDeliveryGated store env m t1).1.sent.length = 1) ∧
    ((processDeliveryGated (processDeliveryGated store env m t1).2 env2 m t2).1.gatewayCalled
        = false ∧
     (processDeliveryGated (processDeliveryGated store env m t1).2 env2 m t2).1.sent = []) := by
  have hc1 : claimMessage store m.chatId m.messageId t1 =
      (.firstClaim, ⟨upsert store.recs (dedupKey m.chatId m.messageId) t1⟩) := by
    simp only [claimMessage]
    rw [hfresh]
  have hs1 : processDeliveryGated store env m t1 =
      (process_message env m, ⟨upsert store.recs (dedupKey m.chatId m.messageId) t1⟩) := by
    unfold processDeliveryGated
    rw [hc1]
  have hc2 : claimMessage ⟨upsert store.recs (dedupKey m.chatId m.messageId) t1⟩
      m.chatId m.messageId t2 =
      (.alreadyClaimed, ⟨upsert store.recs (dedupKey m.chatId m.messageId) t1⟩) := by
    simp only [claimMessage]
    rw [lookup_upsert_self]
    simp [hwin]
  constructor
  · rw [hs1]
    simp only [process_message, hm, hgw, Bool.not_true, Bool.false_eq_true, if_false]
    unfold consumerReply
    rw [hsend]
    exact ⟨rfl, rfl⟩
  · rw [hs1]
    unfold processDeliveryGated
    rw [hc2]
    exact ⟨rfl, rfl⟩

/-- Witness for C1 at a concrete store, job and pair of delivery times. -/
theorem claim_C1_witness :
    ((processDeliveryGated ⟨[]⟩
       { gateway := .ok { response := some "hi", is_error := some false, error_message := none },
         timeoutNoticeOk := true, errorNoticeOk := true, finalSend := .ok,
         fallbackOk := true, md := fun s => s }
       { hasMessage := true, textOverride := none, msgText := some "hello",
         threadOverride := none, msgThreadId := none, messageId := 67890, chatId := 12345 }
       100).1.gatewayCalled = true) ∧
    ((processDeliveryGated (processDeliveryGated ⟨[]⟩
       { gateway := .ok { response := some "hi", is_error := some false, error_message := none },
         timeoutNoticeOk := true, errorNoticeOk := true, finalSend := .ok,
         fallbackOk := true, md := fun s => s }
       { hasMessage := true, textOverride := none, msgText := some "hello",
         threadOverride := none, msgThreadId := none, messageId := 67890, chatId := 12345 }
       100).2
       { gateway := .ok { response := some "hi", is_error := some false, error_message := none },
         timeoutNoticeOk := true, errorNoticeOk := true, finalSend := .ok,
         fallbackOk := true, md := fun s => s }
       { hasMessage := true, textOverride := none, msgText := some "hello",
         threadOverride := none, msgThreadId := none, messageId := 67890, chatId := 12345 }
       200).1.sent = []) := by
  have h := claim_C1 ⟨[]⟩
    { gateway := .ok { response := some "hi", is_error := some false, error_message := none },
      timeoutNoticeOk := true, errorNoticeOk := true, finalSend := .ok,
      fallbackOk := true, md := fun s => s }
    { gateway := .ok { response := some "hi", is_error := some false, error_message := none },
      timeoutNoticeOk := true, errorNoticeOk := true, finalSend := .ok,
      fallbackOk := true, md := fun s => s }
    { hasMessage := true, textOverride := none, msgText := some "hello",
      threadOverride := none, msgThreadId := none, messageId := 67890, chatId := 12345 }
    { response := some "hi", is_error := some false, error_message := none }
    100 200 rfl rfl rfl rfl (by decide)
  exact ⟨h.1.1, h.2.2⟩

/-! ### C6: session-token monotonicity -/

theorem agent_process_session_fallback (sessionId : Option String) (run : SdkRun)
    (h : ∀ msg ∈ run.msgs, ∃ ts, msg = SdkMsg.assistant ts) :
    (agent_process_message sessionId run).session_id = pyOrEmpty sessionId := by
  unfold agent_process_message
  have hfold : ∀ (acc : AgentAcc), (∀ msg ∈ run.msgs, ∃ ts, msg = SdkMsg.assistant ts) →
      (run.msgs.foldl agentStep acc).rsid = acc.rsid := by
    intro acc
    generalize run.msgs = l
    induction l generalizing acc with
    | nil => intro _; rfl
    | cons x t ih =>
      intro hx
      obtain ⟨ts, hts⟩ := hx x (by simp)
      subst hts
      have := ih { acc with responseTexts := acc.responseTexts ++ ts }
        (fun msg hmsg => hx msg (by simp [hmsg]))
      simpa [agentStep] using this
  cases hexn : run.exn with
  | none => simpa [hexn] using hfold _ h
  | some e => simpa [hexn] using hfold _ h

/-- The session table after one server invocation is either untouched or an
upsert of a non-empty session id that differs from the one loaded for that
key. -/
theorem server_store_cases (env : ServerEnv) (req : ServerRequest) :
    (server_lambda_handler env req).storeTable = env.storeTable ∨
    ∃ k rs, rs ≠ "" ∧ neqOpt rs (env.storeTable.lookup k) = true ∧
      (server_lambda_handler env req).storeTable = upsert env.storeTable k rs := by
  simp only [server_lambda_handler]
  by_cases ha : req.authHeader = "Bearer " ++ env.authToken
  case neg =>
    rw [if_pos (by simpa using ha)]
    left
    rfl
  case pos =>
  rw [if_neg (by simpa using ha)]
  cases hb : req.body with
  | malformed => left; rfl
  | parsed um cid tid =>
    dsimp only
    by_cases hempty : um = "" ∨ cid = ""
    · rw [if_pos hempty]; left; rfl
    · rw [if_neg hempty]
      by_cases hdl : (pyTruthyStr (env.storeTable.lookup (sessionKey cid tid)) &&
          !env.downloadOk) = true
      · rw [if_pos hdl]; left; rfl
      · rw [if_neg hdl]
        cases har : env.agentRun with
        | raisedWith e => left; rfl
        | ok run =>
          dsimp only
          by_cases hcond :
              ((agent_process_message (env.storeTable.lookup (sessionKey cid tid))
                  run).session_id ≠ "" &&
               neqOpt (agent_process_message (env.storeTable.lookup (sessionKey cid tid))
                  run).session_id (env.storeTable.lookup (sessionKey cid tid))) = true
          · rw [if_pos hcond]
            obtain ⟨hrs, hneq⟩ := Bool.and_eq_true_iff.mp hcond
            by_cases hsave : env.saveOk = true
            · rw [if_pos hsave]
              right
              exact ⟨sessionKey cid tid, _, by simpa using hrs, hneq, rfl⟩
            · rw [if_neg hsave]; left; rfl
          · rw [if_neg hcond]; left; rfl

/-- C6: session-token monotonicity.  (a) A conversation key whose stored
resume token is non-empty still maps to a non-empty token after any server
invocation; (b) the table only ever changes by upserting a non-empty session
id that differs from the loaded one; (c) when the agent call raises, the 500
response body echoes the previously loaded session id; (d) when the SDK run
yields no `ResultMessage`, the result session id falls back to the loaded
token (`session_id or ''`). -/
theorem claim_C6 (env : ServerEnv) (req : ServerRequest) :
    (∀ k t, env.storeTable.lookup k = some t → t ≠ "" →
        ∃ t', (server_lambda_handler env req).storeTable.lookup k = some t' ∧ t' ≠ "") ∧
    ((server_lambda_handler env req).storeTable = env.storeTable ∨
      ∃ k rs, rs ≠ "" ∧ neqOpt rs (env.storeTable.lookup k) = true ∧
        (server_lambda_handler env req).storeTable = upsert env.storeTable k rs) ∧
    (∀ e um cid tid, env.agentRun = .raisedWith e → req.body = .parsed um cid tid →
        req.authHeader = "Bearer " ++ env.authToken → ¬ (um = "" ∨ cid = "") →
        ¬ ((pyTruthyStr (env.storeTable.lookup (sessionKey cid tid)) &&
            !env.downloadOk) = true) →
        (server_lambda_handler env req).bodySessionId =
          env.storeTable.lookup (sessionKey cid tid) ∧
        (server_lambda_handler env req).statusCode = 500) ∧
    (∀ sid run, (∀ msg ∈ run.msgs, ∃ ts, msg = SdkMsg.assistant ts) →
        (agent_process_message sid run).session_id = pyOrEmpty sid) := by
  refine ⟨?_, server_store_cases env req, ?_, agent_process_session_fallback⟩
  · intro k t hk ht
    rcases server_store_cases env req with hsame | ⟨k0, rs, hrs, _, hup⟩
    · exact ⟨t, by rw [hsame]; exact hk, ht⟩
    · by_cases hkk : k = k0
      · subst hkk
        exact ⟨rs, by rw [hup]; exact lookup_upsert_self _ _ _, hrs⟩
      · exact ⟨t, by rw [hup, lookup_upsert_ne _ _ _ _ hkk]; exact hk, ht⟩
  · intro e um cid tid har hb ha hempty hdl
    simp only [server_lambda_handler, hb]
    rw [if_neg (by simpa using ha), if_neg hempty, if_neg hdl, har]
    exact ⟨rfl, rfl⟩

/-- Witness for C6 at a concrete store, request and SDK run. -/
theorem claim_C6_witness :
    ∃ t', (server_lambda_handler
      { authToken := "tok",
        storeTable := [("1:default", "sess-1")],
        agentRun := .ok { msgs := [.res { sessionId := "sess-2", numTurns := 1,
                                          isErr := false, resultText := none }],
                          exn := none },
        downloadOk := true, saveOk := true, uploadOk := true }
      { authHeader := "Bearer tok",
        body := .parsed "hi" "1" none }).storeTable.lookup "1:default" = some t' ∧
    t' ≠ "" :=
  (claim_C6
    { authToken := "tok",
      storeTable := [("1:default", "sess-1")],
      agentRun := .ok { msgs := [.res { sessionId := "sess-2", numTurns := 1,
                                        isErr := false, resultText := none }],
                        exn := none },
      downloadOk := true, saveOk := true, uploadOk := true }
    { authHeader := "Bearer tok",
      body := .parsed "hi" "1" none }).1 "1:default" "sess-1" rfl (by decide)

end FSAgent
